import Mathlib

/-!
Shallow embedding of the fruit_fly_tracker genetics/statistics core
(src/models/allele.py, src/models/genotype.py, src/models/experiment.py,
src/core/genetics.py, src/core/statistics.py, src/cli/menu.py analysis flow).

Python strings are modelled as Lean `String` (code-point lists), dicts as
association lists in insertion order, floats as `ℚ` with Python's `round`
idealized as round-half-to-even over `ℚ`, and raised exceptions as
`Except String`.  The scipy chi-square distribution functions (`chi2.cdf`
via `stats.chisquare`, and `chi2.ppf`) are external collaborators and are
passed in as function parameters `cdf`/`ppf`.
-/

namespace FruitFly

instance {ε α : Type} [DecidableEq ε] [DecidableEq α] : DecidableEq (Except ε α) :=
  fun x y =>
  match x, y with
  | .ok a, .ok b =>
    if h : a = b then isTrue (by rw [h])
    else isFalse (fun hc => h (Except.ok.inj hc))
  | .error a, .error b =>
    if h : a = b then isTrue (by rw [h])
    else isFalse (fun hc => h (Except.error.inj hc))
  | .ok _, .error _ => isFalse (fun hc => Except.noConfusion hc)
  | .error _, .ok _ => isFalse (fun hc => Except.noConfusion hc)

/-- Python `str.split()` word-splitting on whitespace runs, accumulator form. -/
def wordsAux : List Char → List Char → List (List Char)
  | [], acc => if acc.isEmpty then [] else [acc.reverse]
  | c :: rest, acc =>
    if c.isWhitespace then
      if acc.isEmpty then wordsAux rest [] else acc.reverse :: wordsAux rest []
    else wordsAux rest (c :: acc)

/-- Python `str.split()` with no separator: split on whitespace runs, no empty tokens. -/
def pyWords (cs : List Char) : List (List Char) := wordsAux cs []

/-- Python `str.strip()`: drop leading and trailing whitespace. -/
def pyStrip (cs : List Char) : List Char :=
  ((cs.dropWhile Char.isWhitespace).reverse.dropWhile Char.isWhitespace).reverse

/-- String-level `str.strip()`. -/
def pyStripS (s : String) : String := String.mk (pyStrip s.toList)

/-- Allele (models/allele.py): symbol, phenotype description, dominance flag. -/
structure Allele where
  symbol : Char
  description : String
  is_dominant : Bool
deriving DecidableEq

/-- Storage record produced by `Allele.to_dict` (same three fields). -/
structure AlleleRecord where
  symbol : Char
  description : String
  is_dominant : Bool
deriving DecidableEq

/-- Allele.to_dict (models/allele.py). -/
def Allele.to_dict (a : Allele) : AlleleRecord :=
  { symbol := a.symbol, description := a.description, is_dominant := a.is_dominant }

/-- Allele.from_dict (models/allele.py). -/
def Allele.from_dict (r : AlleleRecord) : Allele :=
  { symbol := r.symbol, description := r.description, is_dominant := r.is_dominant }

/-- The `allele_definitions` dict mapping symbols to Allele objects. -/
abbrev AlleleDefs := List (Char × Allele)

/-- Python dict `.get` on the allele-definitions mapping. -/
def lookupAllele (d : AlleleDefs) (c : Char) : Option Allele :=
  (d.find? (fun p => p.fst == c)).map Prod.snd

/-- Genotype (models/genotype.py): the stripped source string, the allele
definitions handed to the constructor, and the parsed gene-pairs in order
(the dict keys `trait_1`, `trait_2`, ... are positional). -/
structure Genotype where
  genotype_string : String
  allele_definitions : AlleleDefs
  alleles : List (Char × Char)
deriving DecidableEq

/-- Loop body of `Genotype._parse_genotype`: each token must have exactly 2
characters; the first malformed token raises ValueError. -/
def parsePairs : List (List Char) → Except String (List (Char × Char))
  | [] => .ok []
  | t :: ts =>
    match t with
    | [a, b] => (parsePairs ts).map (fun r => (a, b) :: r)
    | _ => .error ("Each gene must have exactly 2 alleles. Got: " ++ String.mk t)

/-- Genotype constructor (models/genotype.py `__init__` + `_parse_genotype`):
strip the input, split into tokens, parse each token into a 2-symbol pair. -/
def Genotype.mk? (genotype_string : String) (allele_definitions : AlleleDefs) :
    Except String Genotype :=
  (parsePairs (pyWords (pyStripS genotype_string).toList)).map
    (fun ps => { genotype_string := pyStripS genotype_string,
                 allele_definitions := allele_definitions, alleles := ps })

/-- itertools.product over a list of choice lists (first factor varies slowest). -/
def listProd : List (List Char) → List (List Char)
  | [] => [[]]
  | l :: ls => l.flatMap (fun c => (listProd ls).map (fun rest => c :: rest))

/-- Genotype.get_gametes (models/genotype.py): one allele from each gene-pair,
all combinations, joined, deduplicated (`list(set(...))`). -/
def Genotype.get_gametes (g : Genotype) : List String :=
  ((listProd (g.alleles.map (fun p => [p.fst, p.snd]))).map
    (fun cs => String.mk cs)).dedup

/-- Storage record produced by `Genotype.to_dict`. -/
structure GenotypeRecord where
  genotype_string : String
  alleles : List (Char × Char)
deriving DecidableEq

/-- Genotype.to_dict (models/genotype.py). -/
def Genotype.to_dict (g : Genotype) : GenotypeRecord :=
  { genotype_string := g.genotype_string, alleles := g.alleles }

namespace GeneticsCalculator

/-- Sort key used in `_combine_gametes`: `lambda x: (x.lower(), x.islower())`. -/
def sortKey (c : Char) : Char × Bool := (c.toLower, c.isLower)

/-- Strict comparison of two sort keys (tuple comparison in Python `sorted`). -/
def keyLt (c d : Char) : Bool :=
  c.toLower < d.toLower || (c.toLower == d.toLower && (!c.isLower && d.isLower))

/-- Stable two-element `sorted([allele1, allele2], key=sortKey)` joined to a string. -/
def sortPair (a b : Char) : String :=
  if keyLt b a then String.mk [b, a] else String.mk [a, b]

/-- Non-strict order on symbols induced by `sortKey`: lowercase form first,
then uppercase before lowercase among the same letter. -/
def caseKeyLe (c d : Char) : Prop :=
  c.toLower < d.toLower ∨ (c.toLower = d.toLower ∧ (c.isLower = true → d.isLower = true))

/-- GeneticsCalculator._combine_gametes (core/genetics.py): requires equal gene
counts, sorts each positional pair by `sortKey`, joins pairs with spaces. -/
def combineGametes (gamete1 gamete2 : String) : Except String String :=
  if gamete1.length ≠ gamete2.length then
    .error "Gametes must have same number of genes"
  else
    .ok (String.intercalate " " (List.zipWith sortPair gamete1.toList gamete2.toList))

/-- itertools.product over two lists (pairs in row-major order). -/
def productPairs (l1 l2 : List String) : List (String × String) :=
  l1.flatMap (fun a => l2.map (fun b => (a, b)))

/-- Python for-loop building a list where the body may raise: the first
exception aborts the whole computation and no partial list escapes. -/
def mapExcept (f : α → Except String β) : List α → Except String (List β)
  | [] => .ok []
  | a :: t =>
    match f a with
    | .error e => .error e
    | .ok b => (mapExcept f t).map (fun r => b :: r)

/-- GeneticsCalculator.generate_punnett_square (core/genetics.py): combine every
gamete of parent1 with every gamete of parent2, in product order. -/
def generatePunnettSquare (parent1 parent2 : Genotype) : Except String (List String) :=
  mapExcept (fun gg => combineGametes gg.fst gg.snd)
    (productPairs parent1.get_gametes parent2.get_gametes)

/-- Loop body of `_genotype_to_phenotype` for one gene-pair token: index the
first two symbols (IndexError if too short), look both up (ValueError if a
definition is missing), then apply the dominance rule. -/
def phenotypePart (defs : AlleleDefs) (pair : List Char) : Except String String :=
  match pair with
  | a1 :: a2 :: _ =>
    match lookupAllele defs a1, lookupAllele defs a2 with
    | some allele1, some allele2 =>
      if allele1.is_dominant || a1 == a2 then .ok allele1.description
      else if allele2.is_dominant then .ok allele2.description
      else .ok allele2.description
    | _, _ => .error ("Allele definition missing for " ++ String.mk pair)
  | _ => .error "string index out of range"

/-- GeneticsCalculator._genotype_to_phenotype (core/genetics.py). -/
def genotypeToPhenotype (genotype_string : String) (defs : AlleleDefs) :
    Except String String :=
  (mapExcept (phenotypePart defs) (pyWords genotype_string.toList)).map
    (fun parts => String.intercalate ", " parts)

/-- One value of the dict returned by `calculate_phenotype_ratios`. -/
structure RatioEntry where
  count : ℕ
  ratio : ℚ
  fraction : String
deriving DecidableEq

/-- Round-half-to-even to an integer: idealized semantics of Python `round`. -/
def roundHalfEven (x : ℚ) : ℤ :=
  let n := ⌊x⌋
  let r := x - n
  if r < 1/2 then n
  else if 1/2 < r then n + 1
  else if n % 2 = 0 then n else n + 1

/-- Python `round(x, d)` idealized over the rationals. -/
def roundTo (d : ℕ) (x : ℚ) : ℚ :=
  (roundHalfEven (x * 10 ^ d) : ℚ) / 10 ^ d

/-- GeneticsCalculator.calculate_expected_counts (core/genetics.py):
`round(data["ratio"] * total_expected, 1)` per phenotype. -/
def calculateExpectedCounts (phenotype_ratios : List (String × RatioEntry))
    (total_expected : ℚ) : List (String × ℚ) :=
  phenotype_ratios.map (fun p => (p.fst, roundTo 1 (p.snd.ratio * total_expected)))

end GeneticsCalculator

/-- config.ALPHA_LEVEL (config.py): default significance level. -/
def ALPHA_LEVEL : ℚ := 1/20

namespace StatisticalAnalyzer

/-- The `set(expected.keys()) == set(observed.keys())` guard in chi_square_test. -/
def sameKeySet (expected observed : List (String × ℚ)) : Bool :=
  expected.all (fun p => observed.any (fun q => q.fst == p.fst)) &&
  observed.all (fun p => expected.any (fun q => q.fst == p.fst))

/-- Dict indexing `counts[p]` for a key known to be present (0 is unreachable
under the key-set guard). -/
def lookupCount (counts : List (String × ℚ)) (k : String) : ℚ :=
  (((counts.find? (fun p => p.fst == k)).map Prod.snd)).getD 0

/-- The chi-square statistic computed by `scipy.stats.chisquare`:
sum of (observed - expected)^2 / expected over the expected dict's key order.
Division by zero yields 0 in ℚ; the spec flags a zero expected count as
undefined behavior and no claim exercises it. -/
def chiSquareStat (expected_counts observed_counts : List (String × ℚ)) : ℚ :=
  let phenotypes := expected_counts.map (fun p => p.fst)
  let expected := phenotypes.map (lookupCount expected_counts)
  let observed := phenotypes.map (lookupCount observed_counts)
  (List.zipWith (fun o e => (o - e) ^ 2 / e) observed expected).sum

/-- The result dict returned by chi_square_test (display fields rounded to 3
decimal places, as in the source; `passed` computed from the unrounded values). -/
structure ChiSquareResult where
  chi_square : ℚ
  p_value : ℚ
  degrees_freedom : ℤ
  critical_value : ℚ
  alpha : ℚ
  passed : Bool
  interpretation : String
deriving DecidableEq

/-- StatisticalAnalyzer._interpret_result (core/statistics.py). -/
def interpretResult (passed : Bool) : String :=
  if passed then
    "Your observed data matches the expected Mendelian ratios. There is no statistically significant deviation."
  else
    "Your observed data significantly deviates from expected ratios. This may indicate: counting error, selection bias, or different genetic mechanism than predicted."

/-- StatisticalAnalyzer.chi_square_test (core/statistics.py).  The scipy
distribution functions are abstracted: `cdf` is the chi-square CDF used by
`stats.chisquare` to produce the p-value (p = 1 - cdf(statistic)) and `ppf`
is `stats.chi2.ppf`, so critical_value = ppf(1 - alpha).  `alpha = none`
models the Python default of `config.ALPHA_LEVEL`. -/
def chiSquareTest (cdf ppf : ℚ → ℚ) (expected_counts observed_counts : List (String × ℚ))
    (alpha : Option ℚ) : Except String ChiSquareResult :=
  let a := alpha.getD ALPHA_LEVEL
  if sameKeySet expected_counts observed_counts then
    let chi_square := chiSquareStat expected_counts observed_counts
    let p_value := 1 - cdf chi_square
    let df : ℤ := (expected_counts.length : ℤ) - 1
    let critical_value := ppf (1 - a)
    let passed := decide (chi_square < critical_value)
    .ok { chi_square := GeneticsCalculator.roundTo 3 chi_square,
          p_value := GeneticsCalculator.roundTo 3 p_value,
          degrees_freedom := df,
          critical_value := GeneticsCalculator.roundTo 3 critical_value,
          alpha := a,
          passed := passed,
          interpretation := interpretResult passed }
  else .error "Expected and observed must have same phenotypes"

end StatisticalAnalyzer

/-- Experiment (models/experiment.py).  Timestamps are opaque strings
(ISO-8601 in the source); `datetime.now()` is passed in as `now` where
needed. -/
structure Experiment where
  experiment_id : String
  name : String
  date_created : String
  date_modified : String
  allele_definitions : AlleleDefs
  parent1 : Genotype
  parent2 : Genotype
  total_expected : ℤ
  expected_counts : List (String × ℚ)
  observed_counts : Option (List (String × ℚ))
  notes : String
  chi_square_result : Option StatisticalAnalyzer.ChiSquareResult
deriving DecidableEq

/-- Experiment constructor (models/experiment.py `__init__`): parses both
parent genotype strings against the shared allele definitions; a parse
failure propagates and no Experiment is built. -/
def Experiment.mk? (experiment_id name parent1_string parent2_string : String)
    (allele_definitions : AlleleDefs) (total_expected : ℤ) (notes : String)
    (now : String) : Except String Experiment := do
  let p1 ← Genotype.mk? parent1_string allele_definitions
  let p2 ← Genotype.mk? parent2_string allele_definitions
  pure { experiment_id := experiment_id, name := name, date_created := now,
         date_modified := now, allele_definitions := allele_definitions,
         parent1 := p1, parent2 := p2, total_expected := total_expected,
         expected_counts := [], observed_counts := none, notes := notes,
         chi_square_result := none }

/-- Experiment.set_chi_square_result (models/experiment.py). -/
def Experiment.set_chi_square_result (e : Experiment)
    (result : StatisticalAnalyzer.ChiSquareResult) (now : String) : Experiment :=
  { e with chi_square_result := some result, date_modified := now }

/-- Menu._run_statistical_analysis (cli/menu.py): run chi_square_test on the
experiment's expected and observed counts (default alpha) and attach the
result.  An exception propagates and leaves the experiment unchanged; it is
returned as the second component. -/
def runStatisticalAnalysis (cdf ppf : ℚ → ℚ) (now : String) (e : Experiment) :
    Experiment × Option String :=
  match e.observed_counts with
  | none => (e, some "observed_counts is None")
  | some oc =>
    match StatisticalAnalyzer.chiSquareTest cdf ppf e.expected_counts oc none with
    | .ok r => (e.set_chi_square_result r now, none)
    | .error m => (e, some m)

/-- The storage record produced by Experiment.to_dict. -/
structure ExperimentRecord where
  experiment_id : String
  name : String
  date_created : String
  date_modified : String
  parent1 : GenotypeRecord
  parent2 : GenotypeRecord
  allele_definitions : List (Char × AlleleRecord)
  total_expected : ℤ
  expected_counts : List (String × ℚ)
  observed_counts : Option (List (String × ℚ))
  notes : String
  chi_square_result : Option StatisticalAnalyzer.ChiSquareResult
deriving DecidableEq

/-- Experiment.to_dict (models/experiment.py). -/
def Experiment.to_dict (e : Experiment) : ExperimentRecord :=
  { experiment_id := e.experiment_id, name := e.name,
    date_created := e.date_created, date_modified := e.date_modified,
    parent1 := e.parent1.to_dict, parent2 := e.parent2.to_dict,
    allele_definitions := e.allele_definitions.map (fun p => (p.fst, p.snd.to_dict)),
    total_expected := e.total_expected, expected_counts := e.expected_counts,
    observed_counts := e.observed_counts, notes := e.notes,
    chi_square_result := e.chi_square_result }

/-- Experiment.from_dict (models/experiment.py): rebuild the allele
definitions, re-run the constructor on the stored genotype source strings
(re-parsing them), then restore dates and calculated/observed data. -/
def Experiment.from_dict (data : ExperimentRecord) : Except String Experiment := do
  let allele_defs := data.allele_definitions.map (fun p => (p.fst, Allele.from_dict p.snd))
  let e ← Experiment.mk? data.experiment_id data.name
    data.parent1.genotype_string data.parent2.genotype_string
    allele_defs data.total_expected data.notes ""
  pure { e with
         date_created := data.date_created,
         date_modified := data.date_modified,
         expected_counts := data.expected_counts,
         observed_counts := data.observed_counts,
         chi_square_result := data.chi_square_result }

/-- The phenotype strings of all offspring of an experiment's cross, derived
from the genotype source strings plus the allele definitions
(generate_punnett_square + _genotype_to_phenotype). -/
def experimentPhenotypes (e : Experiment) : Except String (List String) := do
  let off ← GeneticsCalculator.generatePunnettSquare e.parent1 e.parent2
  GeneticsCalculator.mapExcept
    (fun s => GeneticsCalculator.genotypeToPhenotype s e.allele_definitions) off

/-! Concrete sample data, used to instantiate the theorems below. -/

/-- Conventional allele definitions: uppercase dominant. -/
def sampleDefs : AlleleDefs :=
  [('E', ⟨'E', "Red eyes", true⟩), ('e', ⟨'e', "White eyes", false⟩)]

/-- Unconventional allele definitions: the lowercase symbol carries the
dominance flag (legal, since `is_dominant` is the authoritative field). -/
def lowerDomDefs : AlleleDefs :=
  [('a', ⟨'a', "Curved wings", true⟩), ('A', ⟨'A', "Straight wings", false⟩)]

/-- The genotype produced by `Genotype.mk? "Ee" sampleDefs`. -/
def sampleParent1 : Genotype :=
  { genotype_string := "Ee", allele_definitions := sampleDefs, alleles := [('E', 'e')] }

/-- The genotype produced by `Genotype.mk? "ee" sampleDefs`. -/
def sampleParent2 : Genotype :=
  { genotype_string := "ee", allele_definitions := sampleDefs, alleles := [('e', 'e')] }

/-- A sample experiment whose expected and observed key sets differ. -/
def sampleMismatchExperiment : Experiment :=
  { experiment_id := "EXP_001", name := "mismatch", date_created := "2026-01-01T00:00:00",
    date_modified := "2026-01-01T00:00:00", allele_definitions := sampleDefs,
    parent1 := sampleParent1, parent2 := sampleParent2, total_expected := 500,
    expected_counts := [("Red eyes", 250), ("White eyes", 250)],
    observed_counts := some [("Red eyes", 247), ("Purple eyes", 253)],
    notes := "", chi_square_result := none }

/-- A sample experiment with well-formed parents, for the round-trip theorem. -/
def sampleExperiment : Experiment :=
  { experiment_id := "EXP_002", name := "mono", date_created := "2026-01-02T00:00:00",
    date_modified := "2026-01-03T00:00:00", allele_definitions := sampleDefs,
    parent1 := sampleParent1, parent2 := sampleParent2, total_expected := 500,
    expected_counts := [("Red eyes", 250), ("White eyes", 250)],
    observed_counts := some [("Red eyes", 247), ("White eyes", 253)],
    notes := "monohybrid", chi_square_result := none }

/-- A sample phenotype-ratio mapping (single category, as for EE x EE) whose
ratios sum to 1. -/
def sampleRatios : List (String × GeneticsCalculator.RatioEntry) :=
  [("Red eyes", ⟨4, 1, "4/4"⟩)]

/-- A two-gene-pair genotype, as produced by `Genotype.mk? "Ee Ww"`. -/
def sampleParentDi : Genotype :=
  { genotype_string := "Ee Ww", allele_definitions := sampleDefs,
    alleles := [('E', 'e'), ('W', 'w')] }

/-! Helper lemmas. -/

theorem string_mk_injective : Function.Injective String.mk :=
  fun _ _ h => congrArg String.data h

theorem toFinset_map_eq {α β : Type} [DecidableEq α] [DecidableEq β]
    (l : List α) (f : α → β) : (l.map f).toFinset = l.toFinset.image f := by
  ext x
  simp [List.mem_toFinset, List.mem_map, Finset.mem_image]

theorem mem_listProd_length {L : List (List Char)} {cs : List Char}
    (h : cs ∈ listProd L) : cs.length = L.length := by
  induction L generalizing cs with
  | nil =>
    simp [listProd] at h
    subst h
    rfl
  | cons l ls ih =>
    simp only [listProd, List.mem_flatMap, List.mem_map] at h
    obtain ⟨c, _, rest, hrest, rfl⟩ := h
    simp [ih hrest]

theorem listProd_pairs_card (ps : List (Char × Char)) :
    ((listProd (ps.map (fun p => [p.fst, p.snd]))).toFinset).card
      = (ps.map (fun p => if p.fst = p.snd then 1 else 2)).prod := by
  induction ps with
  | nil => simp [listProd]
  | cons p ps ih =>
    have hsplit : listProd ((p :: ps).map (fun q => [q.fst, q.snd]))
        = ((listProd (ps.map (fun q => [q.fst, q.snd]))).map (fun r => p.fst :: r))
          ++ ((listProd (ps.map (fun q => [q.fst, q.snd]))).map (fun r => p.snd :: r)) := by
      simp [listProd]
    rw [hsplit, List.toFinset_append, toFinset_map_eq, toFinset_map_eq,
      List.map_cons, List.prod_cons]
    by_cases hpq : p.fst = p.snd
    · rw [hpq, Finset.union_self,
        Finset.card_image_of_injective _ List.cons_injective, ih]
      simp
    · have hdisj : Disjoint
          ((listProd (ps.map (fun q => [q.fst, q.snd]))).toFinset.image (fun r => p.fst :: r))
          ((listProd (ps.map (fun q => [q.fst, q.snd]))).toFinset.image (fun r => p.snd :: r)) := by
        rw [Finset.disjoint_left]
        intro x hx hy
        simp only [Finset.mem_image] at hx hy
        obtain ⟨r1, _, hr1⟩ := hx
        obtain ⟨r2, _, hr2⟩ := hy
        apply hpq
        have := hr1.trans hr2.symm
        exact (List.cons_eq_cons.mp this).1
      rw [Finset.card_union_of_disjoint hdisj,
        Finset.card_image_of_injective _ List.cons_injective,
        Finset.card_image_of_injective _ List.cons_injective, ih, if_neg hpq, two_mul]

theorem prod_le_two_pow (l : List ℕ) (h : ∀ x ∈ l, x = 1 ∨ x = 2) :
    l.prod ≤ 2 ^ l.length ∧ (l.prod = 2 ^ l.length ↔ ∀ x ∈ l, x = 2) := by
  induction l with
  | nil => simp
  | cons a t ih =>
    obtain ⟨hle, hiff⟩ := ih (fun x hx => h x (List.mem_cons_of_mem a hx))
    have ha := h a (List.mem_cons_self a t)
    have h1 : (1:ℕ) ≤ 2 ^ t.length := Nat.one_le_two_pow
    simp only [List.prod_cons, List.length_cons, pow_succ, List.forall_mem_cons]
    constructor
    · rcases ha with rfl | rfl <;> omega
    · constructor
      · intro heq
        rcases ha with rfl | rfl
        · omega
        · have : t.prod = 2 ^ t.length := by omega
          exact ⟨rfl, hiff.mp this⟩
      · rintro ⟨rfl, hall⟩
        have : t.prod = 2 ^ t.length := hiff.mpr hall
        omega

/-- C4: for every genotype with N gene-pairs, the number of gametes returned by
get_gametes is at most 2^N, with equality iff every gene-pair is heterozygous
(its two allele symbols differ). -/
theorem get_gametes_count (g : Genotype) :
    g.get_gametes.length ≤ 2 ^ g.alleles.length
    ∧ (g.get_gametes.length = 2 ^ g.alleles.length ↔ ∀ p ∈ g.alleles, p.fst ≠ p.snd) := by
  have hlen : g.get_gametes.length
      = (g.alleles.map (fun p => if p.fst = p.snd then 1 else 2)).prod := by
    unfold Genotype.get_gametes
    rw [← List.card_toFinset, toFinset_map_eq,
      Finset.card_image_of_injective _ string_mk_injective, listProd_pairs_card]
  have hfac : ∀ x ∈ g.alleles.map (fun p => if p.fst = p.snd then 1 else 2),
      x = 1 ∨ x = 2 := by
    intro x hx
    simp only [List.mem_map] at hx
    obtain ⟨p, _, rfl⟩ := hx
    split <;> simp
  obtain ⟨hle, hiff⟩ := prod_le_two_pow _ hfac
  rw [List.length_map] at hle hiff
  refine ⟨hlen ▸ hle, ?_⟩
  rw [hlen, hiff]
  constructor
  · intro hall p hp
    have := hall _ (List.mem_map_of_mem (fun p => if p.fst = p.snd then 1 else 2) hp)
    by_contra hcontra
    rw [if_pos hcontra] at this
    omega
  · intro hall x hx
    simp only [List.mem_map] at hx
    obtain ⟨p, hp, rfl⟩ := hx
    rw [if_neg (hall p hp)]

theorem sortPair_perm_and_le (a b : Char) :
    ∃ x y : Char, GeneticsCalculator.sortPair a b = String.mk [x, y]
      ∧ ((x, y) = (a, b) ∨ (x, y) = (b, a))
      ∧ GeneticsCalculator.caseKeyLe x y := by
  unfold GeneticsCalculator.sortPair
  by_cases hlt : GeneticsCalculator.keyLt b a = true
  · refine ⟨b, a, by rw [if_pos hlt], Or.inr rfl, ?_⟩
    unfold GeneticsCalculator.keyLt at hlt
    simp only [Bool.or_eq_true, Bool.and_eq_true, decide_eq_true_eq, beq_iff_eq,
      Bool.not_eq_true'] at hlt
    rcases hlt with h | ⟨heq, _, ha⟩
    · exact Or.inl h
    · exact Or.inr ⟨heq, fun _ => ha⟩
  · refine ⟨a, b, by rw [if_neg hlt], Or.inl rfl, ?_⟩
    unfold GeneticsCalculator.keyLt at hlt
    simp only [Bool.or_eq_true, Bool.and_eq_true, decide_eq_true_eq, beq_iff_eq,
      Bool.not_eq_true', not_or, not_and] at hlt
    obtain ⟨hnlt, hrest⟩ := hlt
    rcases lt_or_eq_of_le (le_of_not_lt hnlt) with h | h
    · exact Or.inl h
    · refine Or.inr ⟨h, fun halow => ?_⟩
      by_contra hblow
      exact absurd halow (by simpa [hblow] using hrest h.symm)

/-- C1 counterexample: with allele definitions in which the lowercase symbol
carries the is_dominant flag, _combine_gametes writes the non-dominant
uppercase symbol first, so the dominant-first canonicalization claimed by the
spec fails and letter case is in fact what drives the ordering. -/
theorem combine_gametes_dominant_first_cex :
    GeneticsCalculator.combineGametes "a" "A" = .ok "Aa"
    ∧ GeneticsCalculator.combineGametes "a" "A" ≠ .ok "aA"
    ∧ (lookupAllele lowerDomDefs 'a').map Allele.is_dominant = some true
    ∧ (lookupAllele lowerDomDefs 'A').map Allele.is_dominant = some false
    ∧ ('a' : Char) ≠ 'A' := by
  decide

/-- C1 amended: for gametes of equal gene counts, each gene-pair of the
offspring genotype is the two contributed alleles sorted by the case key
(lowercase form, then islower), so among a dominant/recessive pair written
with the same letter the uppercase symbol comes first; the is_dominant flags
are never consulted (_combine_gametes does not receive allele definitions). -/
theorem combine_gametes_case_canonical (g1 g2 : String) (h : g1.length = g2.length) :
    GeneticsCalculator.combineGametes g1 g2
      = .ok (String.intercalate " "
          (List.zipWith GeneticsCalculator.sortPair g1.toList g2.toList))
    ∧ ∀ a b : Char, ∃ x y : Char,
        GeneticsCalculator.sortPair a b = String.mk [x, y]
        ∧ ((x, y) = (a, b) ∨ (x, y) = (b, a))
        ∧ GeneticsCalculator.caseKeyLe x y := by
  constructor
  · unfold GeneticsCalculator.combineGametes
    rw [if_neg (by simp [h])]
  · exact sortPair_perm_and_le

theorem combine_gametes_case_canonical_witness :
    GeneticsCalculator.combineGametes "a" "A"
      = .ok (String.intercalate " "
          (List.zipWith GeneticsCalculator.sortPair "a".toList "A".toList))
    ∧ ∀ a b : Char, ∃ x y : Char,
        GeneticsCalculator.sortPair a b = String.mk [x, y]
        ∧ ((x, y) = (a, b) ∨ (x, y) = (b, a))
        ∧ GeneticsCalculator.caseKeyLe x y :=
  combine_gametes_case_canonical "a" "A" (by decide)

theorem mapExcept_ok_length {f : α → Except String β} :
    ∀ {l : List α} {r : List β}, GeneticsCalculator.mapExcept f l = .ok r → r.length = l.length := by
  intro l
  induction l with
  | nil =>
    intro r h
    simp only [GeneticsCalculator.mapExcept] at h
    cases h
    rfl
  | cons a t ih =>
    intro r h
    simp only [GeneticsCalculator.mapExcept] at h
    cases hfa : f a with
    | error e => rw [hfa] at h; cases h
    | ok b =>
      rw [hfa] at h
      cases hrec : GeneticsCalculator.mapExcept f t with
      | error e => rw [hrec] at h; cases h
      | ok rt =>
        rw [hrec] at h
        cases h
        simp [ih hrec]

theorem mapExcept_ok_of_forall {f : α → Except String β} :
    ∀ {l : List α}, (∀ x ∈ l, ∃ y, f x = .ok y) →
      ∃ r, GeneticsCalculator.mapExcept f l = .ok r := by
  intro l
  induction l with
  | nil => intro _; exact ⟨[], rfl⟩
  | cons a t ih =>
    intro h
    obtain ⟨b, hb⟩ := h a (List.mem_cons_self a t)
    obtain ⟨rt, hrt⟩ := ih (fun x hx => h x (List.mem_cons_of_mem a hx))
    exact ⟨b :: rt, by simp [GeneticsCalculator.mapExcept, hb, hrt, Except.map]⟩

theorem mapExcept_cons_error {f : α → Except String β} {a : α} {t : List α} {m : String}
    (h : f a = .error m) : GeneticsCalculator.mapExcept f (a :: t) = .error m := by
  simp [GeneticsCalculator.mapExcept, h]

theorem productPairs_length (l1 l2 : List String) :
    (GeneticsCalculator.productPairs l1 l2).length = l1.length * l2.length := by
  induction l1 with
  | nil => simp [GeneticsCalculator.productPairs]
  | cons a t ih =>
    simp only [GeneticsCalculator.productPairs, List.flatMap_cons, List.length_append,
      List.length_map, List.length_cons] at ih ⊢
    rw [ih]
    ring

theorem mem_productPairs {l1 l2 : List String} {gg : String × String}
    (h : gg ∈ GeneticsCalculator.productPairs l1 l2) : gg.fst ∈ l1 ∧ gg.snd ∈ l2 := by
  simp only [GeneticsCalculator.productPairs, List.mem_flatMap, List.mem_map] at h
  obtain ⟨a, ha, b, hb, rfl⟩ := h
  exact ⟨ha, hb⟩

theorem mem_get_gametes_length {g : Genotype} {s : String} (h : s ∈ g.get_gametes) :
    s.length = g.alleles.length := by
  unfold Genotype.get_gametes at h
  rw [List.mem_dedup, List.mem_map] at h
  obtain ⟨cs, hcs, rfl⟩ := h
  show cs.length = g.alleles.length
  rw [mem_listProd_length hcs, List.length_map]

theorem get_gametes_ne_nil (g : Genotype) : g.get_gametes ≠ [] := by
  have hmem : ∀ ps : List (Char × Char), ∃ cs, cs ∈ listProd (ps.map (fun p => [p.fst, p.snd])) := by
    intro ps
    induction ps with
    | nil => exact ⟨[], by simp [listProd]⟩
    | cons p t ih =>
      obtain ⟨cs, hcs⟩ := ih
      refine ⟨p.fst :: cs, ?_⟩
      simp only [List.map_cons, listProd, List.mem_flatMap, List.mem_map]
      exact ⟨p.fst, by simp, cs, hcs, rfl⟩
  obtain ⟨cs, hcs⟩ := hmem g.alleles
  exact List.ne_nil_of_mem (List.mem_dedup.mpr (List.mem_map_of_mem _ hcs))

/-- C5: for parents with equal gene-pair counts, the offspring list of
generate_punnett_square has length exactly |gametes(parent1)| times
|gametes(parent2)| (a multiset with repetition, not a set). -/
theorem generate_punnett_square_length (p1 p2 : Genotype)
    (h : p1.alleles.length = p2.alleles.length) :
    ∃ off, GeneticsCalculator.generatePunnettSquare p1 p2 = .ok off
      ∧ off.length = p1.get_gametes.length * p2.get_gametes.length := by
  have hok : ∀ gg ∈ GeneticsCalculator.productPairs p1.get_gametes p2.get_gametes,
      ∃ y, GeneticsCalculator.combineGametes gg.fst gg.snd = .ok y := by
    intro gg hgg
    obtain ⟨h1, h2⟩ := mem_productPairs hgg
    have hlen : gg.fst.length = gg.snd.length := by
      rw [mem_get_gametes_length h1, mem_get_gametes_length h2, h]
    exact ⟨_, by unfold GeneticsCalculator.combineGametes; rw [if_neg (by simp [hlen])]⟩
  obtain ⟨off, hoff⟩ := mapExcept_ok_of_forall hok
  exact ⟨off, hoff, by rw [mapExcept_ok_length hoff, productPairs_length]⟩

theorem generate_punnett_square_length_witness :
    ∃ off, GeneticsCalculator.generatePunnettSquare sampleParent1 sampleParent2 = .ok off
      ∧ off.length = sampleParent1.get_gametes.length * sampleParent2.get_gametes.length :=
  generate_punnett_square_length sampleParent1 sampleParent2 (by decide)

/-- C8: for parents with differing gene-pair counts, generate_punnett_square
fails with the arity-mismatch ValueError raised by _combine_gametes, and the
caller receives no (partially populated) offspring list. -/
theorem generate_punnett_square_arity_mismatch (p1 p2 : Genotype)
    (h : p1.alleles.length ≠ p2.alleles.length) :
    GeneticsCalculator.generatePunnettSquare p1 p2
      = .error "Gametes must have same number of genes" := by
  obtain ⟨a, t, ha⟩ := List.exists_cons_of_ne_nil (get_gametes_ne_nil p1)
  obtain ⟨b, u, hb⟩ := List.exists_cons_of_ne_nil (get_gametes_ne_nil p2)
  have hmema : a ∈ p1.get_gametes := by rw [ha]; exact List.mem_cons_self a t
  have hmemb : b ∈ p2.get_gametes := by rw [hb]; exact List.mem_cons_self b u
  have herr : GeneticsCalculator.combineGametes a b
      = .error "Gametes must have same number of genes" := by
    unfold GeneticsCalculator.combineGametes
    rw [if_pos]
    rw [mem_get_gametes_length hmema, mem_get_gametes_length hmemb]
    exact h
  unfold GeneticsCalculator.generatePunnettSquare
  rw [ha, hb]
  have hprod : GeneticsCalculator.productPairs (a :: t) (b :: u)
      = (a, b) :: ((u.map (fun x => (a, x))) ++ GeneticsCalculator.productPairs t (b :: u)) := by
    simp [GeneticsCalculator.productPairs]
  rw [hprod]
  exact mapExcept_cons_error herr

theorem generate_punnett_square_arity_mismatch_witness :
    GeneticsCalculator.generatePunnettSquare sampleParent1 sampleParentDi
      = .error "Gametes must have same number of genes" :=
  generate_punnett_square_arity_mismatch sampleParent1 sampleParentDi (by decide)

theorem wordsAux_all_ws {t : List Char} (ht : ∀ c ∈ t, c.isWhitespace = true) :
    ∀ acc, wordsAux t acc = if acc.isEmpty then [] else [acc.reverse] := by
  induction t with
  | nil => intro acc; rfl
  | cons c t ih =>
    intro acc
    have hc := ht c (List.mem_cons_self c t)
    have ihh := ih (fun x hx => ht x (List.mem_cons_of_mem c hx))
    simp only [wordsAux, hc, if_true]
    by_cases hacc : acc.isEmpty
    · simp [hacc, ihh []]
    · simp [hacc, ihh []]

theorem wordsAux_append_ws {t : List Char} (ht : ∀ c ∈ t, c.isWhitespace = true) :
    ∀ (l : List Char) (acc : List Char), wordsAux (l ++ t) acc = wordsAux l acc := by
  intro l
  induction l with
  | nil =>
    intro acc
    rw [List.nil_append, wordsAux_all_ws ht acc]
    rfl
  | cons c l ih =>
    intro acc
    simp only [List.cons_append, wordsAux]
    by_cases hc : c.isWhitespace
    · simp [hc, ih]
    · simp [hc, ih]

theorem pyWords_dropWhile (cs : List Char) :
    pyWords (cs.dropWhile Char.isWhitespace) = pyWords cs := by
  induction cs with
  | nil => rfl
  | cons c cs ih =>
    by_cases hc : c.isWhitespace
    · rw [List.dropWhile_cons_of_pos hc, ih]
      show pyWords cs = wordsAux (c :: cs) []
      simp [wordsAux, hc, pyWords]
    · rw [List.dropWhile_cons_of_neg hc]

theorem pyWords_pyStrip (cs : List Char) : pyWords (pyStrip cs) = pyWords cs := by
  unfold pyStrip
  set m := cs.dropWhile Char.isWhitespace with hm
  have hdecomp : m = (m.reverse.dropWhile Char.isWhitespace).reverse
      ++ (m.reverse.takeWhile Char.isWhitespace).reverse := by
    conv_lhs => rw [← List.reverse_reverse m]
    rw [← List.reverse_append, List.takeWhile_append_dropWhile]
  have hws : ∀ c ∈ (m.reverse.takeWhile Char.isWhitespace).reverse, c.isWhitespace = true := by
    intro c hc
    exact List.mem_takeWhile_imp (List.mem_reverse.mp hc)
  calc pyWords (m.reverse.dropWhile Char.isWhitespace).reverse
      = wordsAux ((m.reverse.dropWhile Char.isWhitespace).reverse
          ++ (m.reverse.takeWhile Char.isWhitespace).reverse) [] :=
        (wordsAux_append_ws hws _ []).symm
    _ = pyWords m := by rw [← hdecomp]; rfl
    _ = pyWords cs := pyWords_dropWhile cs

theorem parsePairs_ok_length :
    ∀ {ts : List (List Char)} {ps : List (Char × Char)},
      parsePairs ts = .ok ps → ps.length = ts.length := by
  intro ts
  induction ts with
  | nil =>
    intro ps h
    cases h
    rfl
  | cons u ts ih =>
    intro ps h
    rcases u with _ | ⟨a, _ | ⟨b, _ | ⟨c, rest⟩⟩⟩
    · cases h
    · cases h
    · simp only [parsePairs] at h
      cases hrec : parsePairs ts with
      | error e => rw [hrec] at h; cases h
      | ok pt =>
        rw [hrec] at h
        cases h
        simp [ih hrec]
    · cases h

theorem parsePairs_ok_of_forall :
    ∀ {ts : List (List Char)}, (∀ t ∈ ts, t.length = 2) →
      ∃ ps, parsePairs ts = .ok ps := by
  intro ts
  induction ts with
  | nil => intro _; exact ⟨[], rfl⟩
  | cons u ts ih =>
    intro h
    obtain ⟨pt, hpt⟩ := ih (fun t ht => h t (List.mem_cons_of_mem u ht))
    have hu := h u (List.mem_cons_self u ts)
    rcases u with _ | ⟨a, _ | ⟨b, _ | ⟨c, rest⟩⟩⟩
    · cases hu
    · cases hu
    · exact ⟨(a, b) :: pt, by simp [parsePairs, hpt, Except.map]⟩
    · simp at hu

theorem parsePairs_error_of_exists :
    ∀ {ts : List (List Char)}, (∃ t ∈ ts, t.length ≠ 2) →
      ∃ m, parsePairs ts = .error m := by
  intro ts
  induction ts with
  | nil => rintro ⟨t, ht, _⟩; cases ht
  | cons u ts ih =>
    rintro ⟨t, ht, hlen⟩
    rcases u with _ | ⟨a, _ | ⟨b, _ | ⟨c, rest⟩⟩⟩
    · exact ⟨_, rfl⟩
    · exact ⟨_, rfl⟩
    · rcases List.mem_cons.mp ht with rfl | hmem
      · simp at hlen
      · obtain ⟨m, hm⟩ := ih ⟨t, hmem, hlen⟩
        exact ⟨m, by simp [parsePairs, hm, Except.map]⟩
    · exact ⟨_, rfl⟩

theorem pyWords_mk_strip (s : String) :
    pyWords (pyStripS s).toList = pyWords s.toList := by
  show pyWords (pyStrip s.toList) = pyWords s.toList
  exact pyWords_pyStrip s.toList

/-- C7: genotype parsing fails with the ValueError (FormatError) exactly when
some whitespace-separated token of the input has length different from 2; on
failure no Genotype value is produced, and on success the parsed gene-pairs
are in bijection with the tokens (each pair holding exactly the token's 2
symbols, by construction of `parsePairs`). -/
theorem genotype_parse_spec (s : String) (d : AlleleDefs) :
    ((∃ m, Genotype.mk? s d = .error m) ↔ ∃ t ∈ pyWords s.toList, t.length ≠ 2)
    ∧ ∀ g, Genotype.mk? s d = .ok g → g.alleles.length = (pyWords s.toList).length := by
  have hwords := pyWords_mk_strip s
  constructor
  · constructor
    · rintro ⟨m, hm⟩
      by_contra hno
      push_neg at hno
      rw [← hwords] at hno
      obtain ⟨ps, hps⟩ := parsePairs_ok_of_forall hno
      unfold Genotype.mk? at hm
      rw [hps] at hm
      cases hm
    · rintro ⟨t, ht, hlen⟩
      rw [← hwords] at ht
      obtain ⟨m, hm⟩ := parsePairs_error_of_exists ⟨t, ht, hlen⟩
      refine ⟨m, ?_⟩
      unfold Genotype.mk?
      rw [hm]
      rfl
  · intro g hg
    unfold Genotype.mk? at hg
    cases hps : parsePairs (pyWords (pyStripS s).toList) with
    | error e => rw [hps] at hg; cases hg
    | ok ps =>
      rw [hps] at hg
      cases hg
      show ps.length = (pyWords s.toList).length
      rw [parsePairs_ok_length hps, hwords]

theorem genotype_parse_spec_witness :
    ∃ m, Genotype.mk? "Eee" sampleDefs = .error m :=
  (genotype_parse_spec "Eee" sampleDefs).1.mpr ⟨['E', 'e', 'e'], by decide, by decide⟩

theorem pyStrip_all_ws {cs : List Char} (h : ∀ c ∈ cs, c.isWhitespace = true) :
    pyStrip cs = [] := by
  unfold pyStrip
  rw [List.dropWhile_eq_nil_iff.mpr h]
  rfl

/-- C10: parsing an empty or whitespace-only genotype string succeeds with
zero gene-pairs, get_gametes returns exactly the empty-string gamete, and
crossing two such parents yields exactly one offspring cell with the empty
genotype string. -/
theorem whitespace_genotype_cross (s1 s2 : String) (d1 d2 : AlleleDefs)
    (h1 : ∀ c ∈ s1.toList, c.isWhitespace = true)
    (h2 : ∀ c ∈ s2.toList, c.isWhitespace = true) :
    ∃ g1 g2, Genotype.mk? s1 d1 = .ok g1 ∧ Genotype.mk? s2 d2 = .ok g2
      ∧ g1.alleles = [] ∧ g2.alleles = []
      ∧ g1.get_gametes = [""] ∧ g2.get_gametes = [""]
      ∧ GeneticsCalculator.generatePunnettSquare g1 g2 = .ok [""] := by
  have hmk : ∀ (s : String) (d : AlleleDefs), (∀ c ∈ s.toList, c.isWhitespace = true) →
      Genotype.mk? s d = .ok { genotype_string := pyStripS s,
                               allele_definitions := d, alleles := [] } := by
    intro s d hs
    unfold Genotype.mk?
    have ht : (pyStripS s).toList = ([] : List Char) := by
      show pyStrip s.toList = []
      exact pyStrip_all_ws hs
    rw [ht]
    rfl
  refine ⟨_, _, hmk s1 d1 h1, hmk s2 d2 h2, rfl, rfl, ?_, ?_, ?_⟩ <;> rfl

theorem whitespace_genotype_cross_witness :
    ∃ g1 g2, Genotype.mk? "" sampleDefs = .ok g1
      ∧ Genotype.mk? "  " sampleDefs = .ok g2
      ∧ g1.alleles = [] ∧ g2.alleles = []
      ∧ g1.get_gametes = [""] ∧ g2.get_gametes = [""]
      ∧ GeneticsCalculator.generatePunnettSquare g1 g2 = .ok [""] :=
  whitespace_genotype_cross "" "  " sampleDefs sampleDefs (by decide) (by decide)

theorem roundHalfEven_close (x : ℚ) : |(GeneticsCalculator.roundHalfEven x : ℚ) - x| ≤ 1/2 := by
  have hfl : (⌊x⌋ : ℚ) ≤ x := Int.floor_le x
  have hfu : x < ⌊x⌋ + 1 := Int.lt_floor_add_one x
  rw [abs_le]
  simp only [GeneticsCalculator.roundHalfEven]
  split_ifs with h1 h2 h3 <;> constructor <;> push_cast <;> linarith

theorem roundTo_close (d : ℕ) (x : ℚ) :
    |GeneticsCalculator.roundTo d x - x| ≤ 1 / (2 * 10 ^ d) := by
  have h10 : (0:ℚ) < 10 ^ d := by positivity
  have h := roundHalfEven_close (x * 10 ^ d)
  have heq : (GeneticsCalculator.roundHalfEven (x * 10 ^ d) : ℚ) / 10 ^ d - x
      = ((GeneticsCalculator.roundHalfEven (x * 10 ^ d) : ℚ) - x * 10 ^ d) / 10 ^ d := by
    field_simp
    ring
  unfold GeneticsCalculator.roundTo
  rw [heq, abs_div, abs_of_pos h10]
  have hrw : (1:ℚ) / (2 * 10 ^ d) = (1/2) / 10 ^ d := by ring
  rw [hrw]
  exact (div_le_div_iff_of_pos_right h10).mpr h

theorem sum_roundTo_close (l : List ℚ) :
    |(l.map (GeneticsCalculator.roundTo 1)).sum - l.sum| ≤ (l.length : ℚ) * (1/20) := by
  induction l with
  | nil => simp
  | cons a t ih =>
    simp only [List.map_cons, List.sum_cons, List.length_cons]
    have ha := roundTo_close 1 a
    have h20 : (1:ℚ) / (2 * 10 ^ 1) = 1/20 := by norm_num
    rw [h20] at ha
    rw [abs_le] at ha ih ⊢
    obtain ⟨ha1, ha2⟩ := ha
    obtain ⟨ih1, ih2⟩ := ih
    constructor <;> push_cast <;> linarith

theorem sum_map_ratio_mul (l : List (String × GeneticsCalculator.RatioEntry)) (T : ℚ) :
    (l.map (fun p => p.snd.ratio * T)).sum = (l.map (fun p => p.snd.ratio)).sum * T := by
  induction l with
  | nil => simp
  | cons a t ih =>
    simp only [List.map_cons, List.sum_cons, ih]
    ring

/-- C6: calculate_expected_counts assigns each phenotype
round(ratio * total_expected, 1), and when the ratios sum to 1 (as every
phenotype-ratio mapping produced by calculate_phenotype_ratios does) the sum
of the expected counts differs from total_expected by at most
0.1 * (number of phenotype categories). -/
theorem calculate_expected_counts_spec
    (phenotype_ratios : List (String × GeneticsCalculator.RatioEntry)) (total_expected : ℚ)
    (h : (phenotype_ratios.map (fun p => p.snd.ratio)).sum = 1) :
    GeneticsCalculator.calculateExpectedCounts phenotype_ratios total_expected
        = phenotype_ratios.map
            (fun p => (p.fst, GeneticsCalculator.roundTo 1 (p.snd.ratio * total_expected)))
    ∧ |((GeneticsCalculator.calculateExpectedCounts phenotype_ratios total_expected).map
          (fun p => p.snd)).sum - total_expected|
        ≤ (1/10 : ℚ) * phenotype_ratios.length := by
  refine ⟨rfl, ?_⟩
  have hmap : ((GeneticsCalculator.calculateExpectedCounts phenotype_ratios total_expected).map
        (fun p => p.snd))
      = (phenotype_ratios.map (fun p => p.snd.ratio * total_expected)).map
          (GeneticsCalculator.roundTo 1) := by
    unfold GeneticsCalculator.calculateExpectedCounts
    rw [List.map_map, List.map_map]
    rfl
  have hs : (phenotype_ratios.map (fun p => p.snd.ratio * total_expected)).sum
      = total_expected := by
    rw [sum_map_ratio_mul, h, one_mul]
  have hb := sum_roundTo_close (phenotype_ratios.map (fun p => p.snd.ratio * total_expected))
  rw [hs, List.length_map] at hb
  rw [hmap]
  have hlen : (0:ℚ) ≤ (phenotype_ratios.length : ℚ) := by positivity
  calc |((phenotype_ratios.map (fun p => p.snd.ratio * total_expected)).map
          (GeneticsCalculator.roundTo 1)).sum - total_expected|
      ≤ (phenotype_ratios.length : ℚ) * (1/20) := hb
    _ ≤ (1/10 : ℚ) * phenotype_ratios.length := by linarith

theorem calculate_expected_counts_spec_witness :
    GeneticsCalculator.calculateExpectedCounts sampleRatios 500
        = sampleRatios.map
            (fun p => (p.fst, GeneticsCalculator.roundTo 1 (p.snd.ratio * 500)))
    ∧ |((GeneticsCalculator.calculateExpectedCounts sampleRatios 500).map
          (fun p => p.snd)).sum - 500|
        ≤ (1/10 : ℚ) * sampleRatios.length :=
  calculate_expected_counts_spec sampleRatios 500 (by simp [sampleRatios])

/-- C2: chi_square_test returns passed = (chi_square < critical_value), and
under the defining properties of the chi-square distribution functions (a
strictly monotone CDF with ppf its inverse at 1 - alpha, as scipy provides
for df >= 1) this verdict is equivalent to p_value > alpha, so the two
formulations agree on the same inputs. -/
theorem chi_square_verdict (cdf ppf : ℚ → ℚ)
    (expected_counts observed_counts : List (String × ℚ)) (a : ℚ)
    (hmono : StrictMono cdf) (hppf : cdf (ppf (1 - a)) = 1 - a)
    (h0 : 0 < a) (h1 : a < 1)
    (hk : StatisticalAnalyzer.sameKeySet expected_counts observed_counts = true) :
    ∃ r, StatisticalAnalyzer.chiSquareTest cdf ppf expected_counts observed_counts
          (some a) = .ok r
      ∧ r.passed = decide (StatisticalAnalyzer.chiSquareStat expected_counts observed_counts
          < ppf (1 - a))
      ∧ (r.passed = true
          ↔ 1 - cdf (StatisticalAnalyzer.chiSquareStat expected_counts observed_counts) > a) := by
  have hok : StatisticalAnalyzer.chiSquareTest cdf ppf expected_counts observed_counts (some a)
      = .ok { chi_square := GeneticsCalculator.roundTo 3
                (StatisticalAnalyzer.chiSquareStat expected_counts observed_counts),
              p_value := GeneticsCalculator.roundTo 3
                (1 - cdf (StatisticalAnalyzer.chiSquareStat expected_counts observed_counts)),
              degrees_freedom := (expected_counts.length : ℤ) - 1,
              critical_value := GeneticsCalculator.roundTo 3 (ppf (1 - a)),
              alpha := a,
              passed := decide (StatisticalAnalyzer.chiSquareStat expected_counts observed_counts
                < ppf (1 - a)),
              interpretation := StatisticalAnalyzer.interpretResult
                (decide (StatisticalAnalyzer.chiSquareStat expected_counts observed_counts
                  < ppf (1 - a))) } := by
    simp only [StatisticalAnalyzer.chiSquareTest, Option.getD]
    rw [if_pos hk]
  refine ⟨_, hok, rfl, ?_⟩
  simp only [decide_eq_true_eq]
  constructor
  · intro hlt
    have hcdf := hmono hlt
    rw [hppf] at hcdf
    linarith
  · intro hgt
    have hcdf : cdf (StatisticalAnalyzer.chiSquareStat expected_counts observed_counts)
        < cdf (ppf (1 - a)) := by rw [hppf]; linarith
    exact hmono.lt_iff_lt.mp hcdf

theorem chi_square_verdict_witness :
    ∃ r, StatisticalAnalyzer.chiSquareTest id id [("Red eyes", 250)] [("Red eyes", 250)]
          (some (1/2)) = .ok r
      ∧ r.passed = decide (StatisticalAnalyzer.chiSquareStat
          [("Red eyes", 250)] [("Red eyes", 250)] < id (1 - 1/2))
      ∧ (r.passed = true
          ↔ 1 - id (StatisticalAnalyzer.chiSquareStat
              [("Red eyes", 250)] [("Red eyes", 250)]) > 1/2) :=
  chi_square_verdict id id [("Red eyes", 250)] [("Red eyes", 250)] (1/2)
    strictMono_id rfl one_half_pos one_half_lt_one (by decide)

/-- C3: chi_square_test fails with the KeySetMismatch ValueError whenever the
expected and observed key sets differ, and then the analysis flow attaches no
result to the Experiment: its chi_square_result field keeps its prior value
(the whole experiment is returned unchanged). -/
theorem chi_square_key_mismatch (cdf ppf : ℚ → ℚ) (now : String) (e : Experiment)
    (oc : List (String × ℚ))
    (hobs : e.observed_counts = some oc)
    (hk : StatisticalAnalyzer.sameKeySet e.expected_counts oc = false) :
    StatisticalAnalyzer.chiSquareTest cdf ppf e.expected_counts oc none
        = .error "Expected and observed must have same phenotypes"
    ∧ runStatisticalAnalysis cdf ppf now e = (e, some "Expected and observed must have same phenotypes")
    ∧ (runStatisticalAnalysis cdf ppf now e).fst.chi_square_result = e.chi_square_result := by
  have herr : StatisticalAnalyzer.chiSquareTest cdf ppf e.expected_counts oc none
      = .error "Expected and observed must have same phenotypes" := by
    simp only [StatisticalAnalyzer.chiSquareTest, Option.getD]
    rw [if_neg (by rw [hk]; exact Bool.false_ne_true)]
  have hrun : runStatisticalAnalysis cdf ppf now e
      = (e, some "Expected and observed must have same phenotypes") := by
    simp only [runStatisticalAnalysis, hobs, herr]
  exact ⟨herr, hrun, by rw [hrun]⟩

theorem chi_square_key_mismatch_witness :
    StatisticalAnalyzer.chiSquareTest id id sampleMismatchExperiment.expected_counts
        [("Red eyes", 247), ("Purple eyes", 253)] none
      = .error "Expected and observed must have same phenotypes"
    ∧ runStatisticalAnalysis id id "2026-01-04T00:00:00" sampleMismatchExperiment
      = (sampleMismatchExperiment, some "Expected and observed must have same phenotypes")
    ∧ (runStatisticalAnalysis id id "2026-01-04T00:00:00" sampleMismatchExperiment).fst.chi_square_result
      = sampleMismatchExperiment.chi_square_result :=
  chi_square_key_mismatch id id "2026-01-04T00:00:00" sampleMismatchExperiment
    [("Red eyes", 247), ("Purple eyes", 253)] rfl (by decide)

theorem allele_defs_roundtrip (d : AlleleDefs) :
    (d.map (fun p => (p.fst, p.snd.to_dict))).map (fun p => (p.fst, Allele.from_dict p.snd))
      = d := by
  induction d with
  | nil => rfl
  | cons a t ih =>
    simp only [List.map_cons, ih]
    rfl

/-- C9: serializing an Experiment with to_dict and deserializing the record
with from_dict reconstructs an Experiment whose recomputed gamete sets for
both parents and whose offspring phenotype strings (derived from the genotype
source strings plus the allele definitions) are identical to the original;
the parents are assumed well-formed, i.e. each is the value the Genotype
constructor produces from its own stored source string, as holds for every
Experiment built by the constructor. -/
theorem experiment_roundtrip (e : Experiment)
    (h1 : Genotype.mk? e.parent1.genotype_string e.allele_definitions = .ok e.parent1)
    (h2 : Genotype.mk? e.parent2.genotype_string e.allele_definitions = .ok e.parent2) :
    ∃ e2, Experiment.from_dict e.to_dict = .ok e2
      ∧ e2.parent1.get_gametes = e.parent1.get_gametes
      ∧ e2.parent2.get_gametes = e.parent2.get_gametes
      ∧ experimentPhenotypes e2 = experimentPhenotypes e := by
  have hfd : Experiment.from_dict e.to_dict = .ok e := by
    obtain ⟨eid, nm, dc, dm, ad, p1, p2, te, ec, oc, nt, cr⟩ := e
    simp only [Experiment.to_dict, Experiment.from_dict, Experiment.mk?,
      Genotype.to_dict] at h1 h2 ⊢
    rw [allele_defs_roundtrip, h1, h2]
    rfl
  exact ⟨e, hfd, rfl, rfl, rfl⟩

theorem experiment_roundtrip_witness :
    ∃ e2, Experiment.from_dict sampleExperiment.to_dict = .ok e2
      ∧ e2.parent1.get_gametes = sampleExperiment.parent1.get_gametes
      ∧ e2.parent2.get_gametes = sampleExperiment.parent2.get_gametes
      ∧ experimentPhenotypes e2 = experimentPhenotypes sampleExperiment :=
  experiment_roundtrip sampleExperiment (by decide) (by decide)

end FruitFly
